import Mathlib

/-!
# Verification of the pythorvision client core

Shallow embedding of `pythorvision/client.py` (session manager: port
allocation, remote start/stop coordination, recorder process lifecycle)
and `pythorvision/video.py` (metadata decoder), with theorems settling the
spec claims C1..C10.

Conventions:
* Python dicts become association lists over `Nat` keys with first-match
  lookup (`alookup`), whole-key removal (`aremove`) and assignment
  (`aset`), matching `d[k]`, `d.pop(k, None)` and `d[k] = v`.
* Remote HTTP calls, process spawning and process liveness are external
  effects; their responses are supplied by an `Env` oracle and every
  outward-visible action is recorded in an event trace, so that theorems
  can speak about "no remote call was issued", "the recorder was spawned
  once", etc.
* A Python function either returns a value or raises; both are data here
  (`Except`-style outcome constructors), and a raised exception still
  carries the mutated state, as in Python.
-/

/-! ## Metadata decoder (`pythorvision/video.py`) -/

/-- Little-endian value of a byte list (least significant byte first),
as `np.frombuffer` reads `<uN` fields. Each entry is taken mod 256. -/
def leBytes : List Nat → Nat
  | [] => 0
  | b :: bs => b % 256 + 256 * leBytes bs

/-- The `len` bytes of `raw` starting at offset `off`, read little-endian. -/
def leSlice (raw : List Nat) (off len : Nat) : Nat :=
  leBytes ((raw.drop off).take len)

/-- The nested `metadata` sub-dtype of `RAW_RECORD_DTYPE`:
`{fpga_timestamp: <u8, rhythm_timestamp: <u4, ttl_in: <u4, ttl_out: <u4,
spi_perf_counter: <u4, reserved: <u8}`. -/
structure RawMeta where
  fpga_timestamp : Nat
  rhythm_timestamp : Nat
  ttl_in : Nat
  ttl_out : Nat
  spi_perf_counter : Nat
  reserved : Nat
deriving Repr, DecidableEq

/-- `RAW_RECORD_DTYPE`: `{video_timestamp: <u8, metadata: nested}`,
40 bytes in total. -/
structure RawRecord where
  video_timestamp : Nat
  metadata : RawMeta
deriving Repr, DecidableEq

/-- `_parse_packet_metadata`: packets shorter than 46 bytes carry no
metadata (`None`); otherwise the 40 bytes `raw[6:46]` are decoded with
`RAW_RECORD_DTYPE` (little-endian, field offsets 6/14/22/26/30/34/38). -/
def parse_packet_metadata (raw_packet_data : List Nat) : Option RawRecord :=
  if raw_packet_data.length < 46 then
    none
  else
    some
      { video_timestamp := leSlice raw_packet_data 6 8
        metadata :=
          { fpga_timestamp := leSlice raw_packet_data 14 8
            rhythm_timestamp := leSlice raw_packet_data 22 4
            ttl_in := leSlice raw_packet_data 26 4
            ttl_out := leSlice raw_packet_data 30 4
            spi_perf_counter := leSlice raw_packet_data 34 4
            reserved := leSlice raw_packet_data 38 8 } }

/-- Truthiness of the numpy structured void scalar returned by
`np.frombuffer(...)[0]`, as tested by `if raw_record:` in
`extract_metadata`. numpy's `VOID_nonzero` reports a structured element
as truthy iff SOME named field is nonzero, recursing into nested
structures — so an all-zero record is falsy. -/
def RawRecord.truthy (r : RawRecord) : Bool :=
  r.video_timestamp != 0 || r.metadata.fpga_timestamp != 0 ||
  r.metadata.rhythm_timestamp != 0 || r.metadata.ttl_in != 0 ||
  r.metadata.ttl_out != 0 || r.metadata.spi_perf_counter != 0 ||
  r.metadata.reserved != 0

/-- One row of the produced structured array, mirroring the
`FrameMetadata` dataclass field order. -/
structure FrameMetadata where
  frame_pts : Int
  gstreamer_pts : Nat
  xdaq_timestamp : Nat
  sample_index : Nat
  ttl_in : Nat
  ttl_out : Nat
deriving Repr, DecidableEq

/-- One demuxed packet of the recorded container's video stream:
its container presentation timestamp (absent = `packet.pts is None`)
and its raw bytes (`bytes(packet)`). -/
structure Packet where
  pts : Option Int
  data : List Nat
deriving Repr, DecidableEq

/-- Errors `av.open` / demuxing can raise. In PyAV every FFmpeg-level
error — including `av.error.FileNotFoundError` for a missing path, which
additionally subclasses the builtin `FileNotFoundError` — is a subclass
of `FFmpegError`, whose deprecated alias is `av.error.AVError`. -/
inductive AvOpenError
  | fileNotFound
  | otherFFmpeg
deriving Repr, DecidableEq

/-- Whether the error is caught by `except av.error.AVError`.
Both constructors are `FFmpegError` subclasses, so both are caught. -/
def AvOpenError.isAVError : AvOpenError → Bool := fun _ => true

/-- Outcome of `av.open(video_path)` plus demuxing: either an FFmpeg
error is raised, or a container with some number of video streams and the
demuxed packet list of the first video stream. -/
inductive OpenResult
  | raises (e : AvOpenError)
  | opened (video_stream_count : Nat) (packets : List Packet)

/-- The packet loop of `extract_metadata`: skip packets without a PTS,
skip packets whose bytes yield no metadata, and append a record built
from `(packet.pts, video_timestamp, fpga_timestamp, rhythm_timestamp,
ttl_in, ttl_out)` whenever `if raw_record:` holds. -/
def processPackets : List Packet → List FrameMetadata
  | [] => []
  | pkt :: rest =>
    match pkt.pts with
    | none => processPackets rest
    | some pts =>
      match parse_packet_metadata pkt.data with
      | none => processPackets rest
      | some raw_record =>
        if raw_record.truthy then
          { frame_pts := pts
            gstreamer_pts := raw_record.video_timestamp
            xdaq_timestamp := raw_record.metadata.fpga_timestamp
            sample_index := raw_record.metadata.rhythm_timestamp
            ttl_in := raw_record.metadata.ttl_in
            ttl_out := raw_record.metadata.ttl_out } :: processPackets rest
        else
          processPackets rest

/-- `extract_metadata(video_path)`. The whole body sits in
`try: ... except av.error.AVError: log` and then returns the collected
records, so any FFmpeg-level failure of `av.open` (missing file included)
produces an empty result rather than an exception; a container without a
video stream returns empty; otherwise the packets are processed in demux
order. A non-`AVError` exception would propagate (`.error`). -/
def extract_metadata (r : OpenResult) : Except AvOpenError (List FrameMetadata) :=
  match r with
  | .raises e => if e.isAVError then .ok [] else .error e
  | .opened video_stream_count packets =>
    if video_stream_count = 0 then .ok []
    else .ok (processPackets packets)

/-! ### Decoder claim theorems (C3, C7, C8) -/

/-- C3: the claim says a nonexistent path signals NotFound while
no-stream / unparseable files return an empty sequence. Evaluating the
code: the `except av.error.AVError` clause also swallows the missing-file
error (PyAV's `FileNotFoundError` subclasses `FFmpegError`), so decode
returns an empty sequence in ALL three situations — the no-stream and
unparseable halves of the claim hold, but NotFound is never signalled,
contradicting the claim and the repo's own example, which wraps
`extract_metadata` in `except FileNotFoundError`. -/
theorem extract_metadata_missing_file_swallowed :
    extract_metadata (.raises .fileNotFound) = .ok [] ∧
    extract_metadata (.raises .otherFFmpeg) = .ok [] ∧
    extract_metadata (.opened 0 [⟨some 0, List.replicate 50 1⟩]) = .ok [] :=
  ⟨rfl, rfl, rfl⟩

/-- C7: packets without a PTS and packets below 46 bytes are skipped
without aborting; but for packet sizes `[50, 10, 46, 5, 100]` the spec's
"exactly 3 records" fails when a qualifying packet's 40 metadata bytes
are all zero: `if raw_record:` evaluates numpy structured-void truthiness
(any-field-nonzero), so the all-zero 46-byte packet is dropped and only
2 records come out. First conjunct: with nonzero payloads the decode does
yield 3 records in packet order with `frame_pts` equal to each packet's
container timestamp; second conjunct: the failing input yields 2; third:
a PTS-less packet is skipped, not fatal. -/
theorem extract_metadata_packet_sizes_eval :
    extract_metadata (.opened 1
        [⟨some 0, List.replicate 50 1⟩, ⟨some 1, List.replicate 10 1⟩,
         ⟨some 2, List.replicate 46 1⟩, ⟨some 3, List.replicate 5 1⟩,
         ⟨some 4, List.replicate 100 1⟩]) =
      .ok [⟨0, 72340172838076673, 72340172838076673, 16843009, 16843009, 16843009⟩,
           ⟨2, 72340172838076673, 72340172838076673, 16843009, 16843009, 16843009⟩,
           ⟨4, 72340172838076673, 72340172838076673, 16843009, 16843009, 16843009⟩] ∧
    extract_metadata (.opened 1
        [⟨some 0, List.replicate 50 1⟩, ⟨some 1, List.replicate 10 1⟩,
         ⟨some 2, List.replicate 46 0⟩, ⟨some 3, List.replicate 5 1⟩,
         ⟨some 4, List.replicate 100 1⟩]) =
      .ok [⟨0, 72340172838076673, 72340172838076673, 16843009, 16843009, 16843009⟩,
           ⟨4, 72340172838076673, 72340172838076673, 16843009, 16843009, 16843009⟩] ∧
    extract_metadata (.opened 1 [⟨none, List.replicate 50 1⟩]) = .ok [] :=
  ⟨rfl, rfl, rfl⟩

/-- C8: the little-endian layout at offset 6 is exactly as described
(8-byte pipeline timestamp at 6, 8-byte device timestamp at 14, 4-byte
sample index at 22, TTL-in at 26, TTL-out at 30, 4-byte auxiliary counter
at 34 and 8 reserved bytes at 38, the last two ignored in the output),
and the record field order is frame-pts, pipeline-pts, device-timestamp,
sample-index, ttl-in, ttl-out — second conjunct. But the claim's "emits a
record" fails for an all-zero metadata payload: numpy's structured-void
truthiness makes `if raw_record:` false, so a 46-byte all-zero packet
with a valid PTS emits nothing — first conjunct. -/
theorem extract_metadata_layout_eval :
    extract_metadata (.opened 1 [⟨some 7, List.replicate 46 0⟩]) = .ok [] ∧
    extract_metadata (.opened 1
        [⟨some 9, List.replicate 6 0 ++ (1 :: List.replicate 7 0) ++
                  (2 :: List.replicate 7 0) ++ (3 :: List.replicate 3 0) ++
                  (4 :: List.replicate 3 0) ++ (5 :: List.replicate 3 0) ++
                  (6 :: List.replicate 3 0) ++ (7 :: List.replicate 7 0)⟩]) =
      .ok [⟨9, 1, 2, 3, 4, 5⟩] :=
  ⟨rfl, rfl⟩

/-! ## Association-list model of Python dicts -/

/-- `d.get(k)` / `d[k]`: first value stored under key `k`. -/
def alookup {α : Type} (l : List (Nat × α)) (k : Nat) : Option α :=
  match l with
  | [] => none
  | (k', v) :: rest => if k = k' then some v else alookup rest k

/-- `d.pop(k, None)` / `del d[k]`: drop every binding of key `k`. -/
def aremove {α : Type} (l : List (Nat × α)) (k : Nat) : List (Nat × α) :=
  l.filter (fun kv => kv.1 ≠ k)

/-- `d[k] = v`: bind `k` to `v` (keys stay duplicate-free). -/
def aset {α : Type} (l : List (Nat × α)) (k : Nat) (v : α) : List (Nat × α) :=
  (k, v) :: aremove l k

theorem alookup_aremove {α : Type} (l : List (Nat × α)) (k k' : Nat) :
    alookup (aremove l k) k' = if k' = k then none else alookup l k' := by
  induction l with
  | nil => simp [aremove, alookup]
  | cons kv rest ih =>
    by_cases h1 : kv.1 = k
    · by_cases h2 : k' = k <;>
        simp_all [aremove, alookup, List.filter]
    · by_cases h2 : k' = kv.1 <;> by_cases h3 : k' = k <;>
        simp_all [aremove, alookup, List.filter]

theorem alookup_aset {α : Type} (l : List (Nat × α)) (k k' : Nat) (v : α) :
    alookup (aset l k v) k' = if k' = k then some v else alookup l k' := by
  by_cases h : k' = k <;> simp [aset, alookup, h, alookup_aremove]

theorem alookup_aset_self {α : Type} (l : List (Nat × α)) (k : Nat) (v : α) :
    alookup (aset l k v) k = some v := by
  simp [alookup_aset]

theorem alookup_aremove_self {α : Type} (l : List (Nat × α)) (k : Nat) :
    alookup (aremove l k) k = none := by
  simp [alookup_aremove]

/-! ## Session manager (`pythorvision/client.py`) -/

/-- One entry of the `GET /cameras` response (fields used by
`start_stream_with_recording`). -/
structure Camera where
  id : Nat
  name : String
deriving Repr, DecidableEq

/-- Result of one remote HTTP request: 2xx, an HTTP error status (which
`raise_for_status` turns into `requests.exceptions.HTTPError`), or a
transport-level failure (`requests.exceptions.ConnectionError` and
friends, raised by `requests` itself, NOT a subclass of `HTTPError`). -/
inductive RResp
  | ok
  | httpError (msg : String)
  | connError
deriving Repr, DecidableEq

/-- Python exceptions the client can raise or propagate. -/
inductive PyError
  | httpError (msg : String)
  | connError
  | runtimeError (msg : String)
  | valueError (msg : String)
deriving Repr, DecidableEq

/-- `str(e)` of an exception, as interpolated into messages. -/
def PyError.msg : PyError → String
  | .httpError m => m
  | .connError => "ConnectionError"
  | .runtimeError m => m
  | .valueError m => m

/-- Oracle for everything outside the client: remote responses (keyed by
camera id), recorder process behaviour (keyed by camera id / pid), and
the wall clock. -/
structure Env where
  host : String
  cameras : List Camera
  listResponse : RResp
  startResponse : Nat → RResp
  stopResponse : Nat → RResp
  spawnOk : Nat → Bool
  pid : Nat → Nat
  healthAlive : Nat → Bool
  aliveAtStop : Nat → Bool
  ignoresTerm : Nat → Bool
  timestamp : String
  spawnErrMsg : String

/-- Outward-visible actions, in program order. -/
inductive Event
  | remoteListCameras
  | remoteStartPost (camera_id port : Nat) (capability : String)
  | remoteStopPost (camera_id : Nat)
  | warnNonJpeg (capability : String)
  | spawnedRecorder (pid : Nat) (cmd : String)
  | terminateSignal (pid : Nat)
  | killProcess (pid : Nat)
deriving Repr, DecidableEq

/-- The five tracking dicts of `ThorVisionClient.__init__` plus the
`_cleanup_done` flag. -/
structure ClientState where
  active_streams : List (Nat × Nat)
  camera_to_port : List (Nat × Nat)
  gstreamer_processes : List (Nat × Nat)
  gstreamer_log_files : List (Nat × String)
  output_paths : List (Nat × String)
  cleanup_done : Bool
deriving Repr, DecidableEq

/-- Freshly constructed client: all dicts empty, cleanup not yet run. -/
def initState : ClientState :=
  { active_streams := [], camera_to_port := [], gstreamer_processes := []
    gstreamer_log_files := [], output_paths := [], cleanup_done := false }

/-- Python's `needle in haystack` on strings. -/
def containsSubstr (needle hay : String) : Bool :=
  (List.range (hay.toList.length + 1)).any
    (fun i => needle.toList.isPrefixOf (hay.toList.drop i))

/-- `''.join(c if c.isalnum() else '_' for c in camera_name)`:
per-character map, non-alphanumeric characters become `'_'`. -/
def sanitizeName (s : String) : String :=
  String.mk (s.data.map (fun c => if c.isAlphanum then c else '_'))

/-- `list_cameras`: `GET /cameras` + `raise_for_status` + `.json()`. -/
def list_cameras (env : Env) : Except PyError (List Camera) × List Event :=
  (match env.listResponse with
   | .ok => .ok env.cameras
   | .httpError m => .error (.httpError m)
   | .connError => .error .connError,
   [Event.remoteListCameras])

/-- `get_available_port(start=9001, end=9099)`: first port of
`range(start, end + 1)` absent from `active_streams`, else
`RuntimeError`. -/
def get_available_port (s : ClientState) (start stop : Nat) : Except PyError Nat :=
  match (List.range' start (stop + 1 - start)).find?
      (fun port => (alookup s.active_streams port).isNone) with
  | some port => .ok port
  | none => .error (.runtimeError
      ("No available ports in range " ++ toString start ++ "-" ++ toString stop))

/-- Result of `stop_stream`: the "no active stream" dict, the success
dict, the partial-success dict produced by the `except HTTPError` branch,
or a propagated exception. -/
inductive StopOutcome
  | noActiveStream (camera_id : Nat) (output_path : Option String)
  | stopped (camera_id : Nat) (output_path : Option String)
  | stoppedWithServerError (camera_id : Nat) (output_path : Option String) (error : String)
  | raised (e : PyError)
deriving Repr, DecidableEq

/-- `stop_stream(camera_id)`. Pops the process, output path and log
handle first; terminates the process if still running (`SIGINT`, then
`kill` after the 5s grace timeout), closing the log in a `finally`; then,
only if the camera is tracked, pops both registry entries BEFORE posting
`/stop`; `raise_for_status` errors are caught by
`except requests.exceptions.HTTPError` and downgraded, while a
transport-level failure of `requests.post` propagates. -/
def stop_stream (env : Env) (s : ClientState) (camera_id : Nat) :
    StopOutcome × ClientState × List Event :=
  let process := alookup s.gstreamer_processes camera_id
  let output_path := alookup s.output_paths camera_id
  let s := { s with gstreamer_processes := aremove s.gstreamer_processes camera_id
                    output_paths := aremove s.output_paths camera_id
                    gstreamer_log_files := aremove s.gstreamer_log_files camera_id }
  let evTerm :=
    match process with
    | some pid =>
      if env.aliveAtStop pid then
        Event.terminateSignal pid ::
          (if env.ignoresTerm pid then [Event.killProcess pid] else [])
      else []
    | none => []
  match alookup s.camera_to_port camera_id with
  | none => (.noActiveStream camera_id output_path, s, evTerm)
  | some port =>
    let s := { s with camera_to_port := aremove s.camera_to_port camera_id
                      active_streams := aremove s.active_streams port }
    let evs := evTerm ++ [Event.remoteStopPost camera_id]
    match env.stopResponse camera_id with
    | .ok => (.stopped camera_id output_path, s, evs)
    | .httpError m => (.stoppedWithServerError camera_id output_path m, s, evs)
    | .connError => (.raised .connError, s, evs)

/-- Result of `start_stream_with_recording`: the "already streaming"
message dict, the success dict (a Session), the `{"error": ...}` dict, or
a propagated exception. -/
inductive StartOutcome
  | alreadyStreaming (camera_id port : Nat)
  | started (camera_id port : Nat) (capability output_path : String)
  | errorDict (msg : String)
  | raised (e : PyError)
deriving Repr, DecidableEq

/-- Body of `start_stream_with_recording` after the initial non-JPEG
warning print: duplicate-start check, `list_cameras`, name
sanitization, port allocation, `POST /jpeg`, registry update, output
path construction, log setup (invalid option raises `ValueError`), then
the `try` block: spawn, 1s health check, and on failure the compensating
`stop_stream` — whose own exception is caught by `except Exception`,
which retries `stop_stream` and returns an error dict. -/
def start_rest (env : Env) (s : ClientState) (camera_id : Nat)
    (capability output_dir : String) (max_size_time max_size_bytes : Nat)
    (gstreamer_log : String) : StartOutcome × ClientState × List Event :=
  match alookup s.camera_to_port camera_id with
  | some existing_port => (.alreadyStreaming camera_id existing_port, s, [])
  | none =>
    match env.listResponse with
    | .httpError m => (.raised (.httpError m), s, [.remoteListCameras])
    | .connError => (.raised .connError, s, [.remoteListCameras])
    | .ok =>
      let camera_name :=
        match env.cameras.find? (fun c => c.id == camera_id) with
        | some c => sanitizeName c.name
        | none => "camera" ++ toString camera_id
      match get_available_port s 9001 9099 with
      | .error e => (.raised e, s, [.remoteListCameras])
      | .ok port =>
        match env.startResponse camera_id with
        | .httpError m => (.raised (.httpError m), s,
            [.remoteListCameras, .remoteStartPost camera_id port capability])
        | .connError => (.raised .connError, s,
            [.remoteListCameras, .remoteStartPost camera_id port capability])
        | .ok =>
          let s1 := { s with
            active_streams := aset s.active_streams port camera_id
            camera_to_port := aset s.camera_to_port camera_id port }
          let base_filename :=
            toString camera_id ++ "_" ++ camera_name ++ "_" ++ env.timestamp
          let output_path := output_dir ++ "/" ++ base_filename ++ "-%02d.mkv"
          let s2 := { s1 with
            output_paths := aset s1.output_paths camera_id output_path }
          let pipeline_cmd :=
            "gst-launch-1.0 -e srtclientsrc uri=srt://" ++ env.host ++ ":" ++
            toString port ++ " latency=500 ! queue ! jpegparse ! splitmuxsink max-size-time=" ++
            toString (max_size_time * 1000000000) ++ " max-size-bytes=" ++
            toString max_size_bytes ++ " muxer-factory=matroskamux location=" ++
            output_path ++ " "
          let evs := [Event.remoteListCameras,
                      Event.remoteStartPost camera_id port capability]
          if gstreamer_log = "none" ∨ gstreamer_log = "file" ∨ gstreamer_log = "console" then
            let log_file_path := output_dir ++ "/" ++ base_filename ++ ".log"
            let s3 :=
              if gstreamer_log = "file" then
                { s2 with gstreamer_log_files := aset s2.gstreamer_log_files camera_id log_file_path }
              else s2
            if env.spawnOk camera_id then
              let pid := env.pid camera_id
              let s4 := { s3 with
                gstreamer_processes := aset s3.gstreamer_processes camera_id pid }
              let evs := evs ++ [Event.spawnedRecorder pid pipeline_cmd]
              if env.healthAlive camera_id then
                (.started camera_id port capability output_path, s4, evs)
              else
                let error_msg :=
                  if gstreamer_log = "console" then
                    "Failed to start GStreamer. See console output for details."
                  else if gstreamer_log = "file" then
                    "Failed to start GStreamer. Check log file at " ++ log_file_path ++ "."
                  else
                    "Failed to start GStreamer. Logging is disabled."
                match stop_stream env s4 camera_id with
                | (.raised e, s5, ev5) =>
                  match stop_stream env s5 camera_id with
                  | (_, s6, ev6) =>
                    (.errorDict ("Failed to start GStreamer: " ++ e.msg), s6,
                     evs ++ ev5 ++ ev6)
                | (_, s5, ev5) => (.errorDict error_msg, s5, evs ++ ev5)
            else
              match stop_stream env s3 camera_id with
              | (.raised e, s4, ev4) => (.raised e, s4, evs ++ ev4)
              | (_, s4, ev4) =>
                (.errorDict ("Failed to start GStreamer: " ++ env.spawnErrMsg),
                 s4, evs ++ ev4)
          else
            (.raised (.valueError
                ("Invalid gstreamer_log option: " ++ gstreamer_log ++
                 ". Use console, file, or none.")), s2, evs)

/-- `start_stream_with_recording(camera_id, capability, output_dir,
max_size_time=3600, max_size_bytes=2000000000, gstreamer_log='file')`.
First statement: the non-JPEG check only PRINTS a warning
(`"image/jpeg" not in capability`) and falls through. -/
def start_stream_with_recording (env : Env) (s : ClientState) (camera_id : Nat)
    (capability output_dir : String) (max_size_time max_size_bytes : Nat)
    (gstreamer_log : String) : StartOutcome × ClientState × List Event :=
  let ev0 := if containsSubstr "image/jpeg" capability then []
             else [Event.warnNonJpeg capability]
  let r := start_rest env s camera_id capability output_dir
             max_size_time max_size_bytes gstreamer_log
  (r.1, r.2.1, ev0 ++ r.2.2)

/-- The `for camera_id in camera_ids: try: stop_stream ... except` loop
of `cleanup`: every per-camera outcome — raised exceptions included — is
swallowed. -/
def stop_all (env : Env) : ClientState → List Nat → ClientState × List Event
  | s, [] => (s, [])
  | s, camera_id :: rest =>
    let r := stop_stream env s camera_id
    let r' := stop_all env r.2.1 rest
    (r'.1, r.2.2 ++ r'.2)

/-- `cleanup()`: guarded by `_cleanup_done`; iterates a snapshot
(`list(self.camera_to_port.keys())`) calling `stop_stream` with
per-camera exception swallowing, then `.clear()`s all five dicts. -/
def cleanup (env : Env) (s : ClientState) : ClientState × List Event :=
  if s.cleanup_done then (s, [])
  else
    let s := { s with cleanup_done := true }
    let camera_ids := s.camera_to_port.map Prod.fst
    let r := stop_all env s camera_ids
    ({ r.1 with active_streams := [], camera_to_port := []
                gstreamer_processes := [], gstreamer_log_files := []
                output_paths := [] },
     r.2)

/-- A public operation of the client, with its arguments. -/
inductive Op
  | opStart (camera_id : Nat) (capability output_dir : String)
      (max_size_time max_size_bytes : Nat) (gstreamer_log : String)
  | opStop (camera_id : Nat)
  | opCleanup

/-- The state left behind by one public operation (return values and
traces discarded). -/
def applyOp (env : Env) (s : ClientState) : Op → ClientState
  | .opStart camera_id capability output_dir mst msb gl =>
    (start_stream_with_recording env s camera_id capability output_dir mst msb gl).2.1
  | .opStop camera_id => (stop_stream env s camera_id).2.1
  | .opCleanup => (cleanup env s).1

/-- Run a sequence of public operations from a given state. -/
def exec (env : Env) : ClientState → List Op → ClientState
  | s, [] => s
  | s, op :: rest => exec env (applyOp env s op) rest

/-- The registry invariant of claim C10: `camera_to_port` and
`active_streams` are mutually inverse. -/
def RegistryInv (s : ClientState) : Prop :=
  ∀ c p, alookup s.camera_to_port c = some p ↔ alookup s.active_streams p = some c

/-! ## Concrete scenario used by witnesses and counterexamples -/

/-- A well-behaved environment: one camera `0` named `"Cam A"`, every
remote call succeeds, the recorder spawns and stays alive. -/
def envA : Env :=
  { host := "192.168.177.100"
    cameras := [⟨0, "Cam A"⟩]
    listResponse := .ok
    startResponse := fun _ => .ok
    stopResponse := fun _ => .ok
    spawnOk := fun _ => true
    pid := fun _ => 100
    healthAlive := fun _ => true
    aliveAtStop := fun _ => true
    ignoresTerm := fun _ => false
    timestamp := "20250101_000000"
    spawnErrMsg := "boom" }

/-- A supported capability descriptor. -/
def capJpeg : String := "image/jpeg,width=1280,height=720,framerate=30/1"

/-- First `start` of camera 0 on the fresh client. -/
def startA : StartOutcome × ClientState × List Event :=
  start_stream_with_recording envA initState 0 capJpeg "./recordings" 3600 2000000000 "file"

/-- State after that start: camera 0 streams on port 9001. -/
def stateA : ClientState := startA.2.1

/-! ### C1: duplicate start -/

/-- C1 (amended): if a session is registered for `camera_id`, a second
`start` leaves the state untouched and performs no remote call, no port
allocation and no spawn (its whole trace is at most the non-JPEG warning
print) — but it returns the "already streaming" message dict naming the
existing port, NOT the existing Session. -/
theorem start_already_streaming_idempotent (env : Env) (s : ClientState)
    (camera_id port : Nat) (capability output_dir : String)
    (max_size_time max_size_bytes : Nat) (gstreamer_log : String)
    (h : alookup s.camera_to_port camera_id = some port) :
    start_stream_with_recording env s camera_id capability output_dir
        max_size_time max_size_bytes gstreamer_log =
      (.alreadyStreaming camera_id port, s,
       if containsSubstr "image/jpeg" capability then []
       else [.warnNonJpeg capability]) := by
  by_cases hc : containsSubstr "image/jpeg" capability <;>
    simp [start_stream_with_recording, start_rest, h, hc]

/-- Witness for C1: concrete second start of camera 0. -/
theorem start_already_streaming_idempotent_witness :
    alookup stateA.camera_to_port 0 = some 9001 ∧
    start_stream_with_recording envA stateA 0 capJpeg "./recordings"
        3600 2000000000 "file" = (.alreadyStreaming 0 9001, stateA, []) :=
  ⟨by decide,
   (start_already_streaming_idempotent envA stateA 0 9001 capJpeg "./recordings"
      3600 2000000000 "file" (by decide)).trans (by decide)⟩

/-- Counterexample for C1 as stated: the first start returns the Session
dict, the second returns only the "already streaming" message — not the
existing Session. -/
theorem start_second_call_not_session :
    startA.1 = .started 0 9001 capJpeg "./recordings/0_Cam_A_20250101_000000-%02d.mkv" ∧
    (start_stream_with_recording envA stateA 0 capJpeg "./recordings"
        3600 2000000000 "file").1 = .alreadyStreaming 0 9001 ∧
    StartOutcome.alreadyStreaming 0 9001 ≠ startA.1 := by
  refine ⟨by decide, by decide, by decide⟩

/-! ### C2: non-JPEG capability -/

/-- C2 (amended): a `start` whose capability does not contain
`"image/jpeg"` is NOT rejected: the code only prints a warning (first
trace entry) and then proceeds exactly like a JPEG start — remote start
call issued, port allocated and registered, recorder spawned. -/
theorem start_nonjpeg_warns_and_proceeds (env : Env) (s : ClientState)
    (camera_id port : Nat) (capability output_dir : String)
    (max_size_time max_size_bytes : Nat)
    (hjpeg : containsSubstr "image/jpeg" capability = false)
    (hfresh : alookup s.camera_to_port camera_id = none)
    (hport : get_available_port s 9001 9099 = .ok port)
    (hlist : env.listResponse = .ok)
    (hstart : env.startResponse camera_id = .ok)
    (hspawn : env.spawnOk camera_id = true)
    (halive : env.healthAlive camera_id = true) :
    (start_stream_with_recording env s camera_id capability output_dir
        max_size_time max_size_bytes "file").2.2.head? =
      some (.warnNonJpeg capability) ∧
    (∃ output_path, (start_stream_with_recording env s camera_id capability
        output_dir max_size_time max_size_bytes "file").1 =
      .started camera_id port capability output_path) ∧
    Event.remoteStartPost camera_id port capability ∈
      (start_stream_with_recording env s camera_id capability output_dir
        max_size_time max_size_bytes "file").2.2 ∧
    alookup (start_stream_with_recording env s camera_id capability output_dir
        max_size_time max_size_bytes "file").2.1.camera_to_port camera_id =
      some port ∧
    alookup (start_stream_with_recording env s camera_id capability output_dir
        max_size_time max_size_bytes "file").2.1.active_streams port =
      some camera_id := by
  simp only [start_stream_with_recording, start_rest, hjpeg, hfresh, hport,
    hlist, hstart, hspawn, halive]
  simp [alookup_aset_self]

/-- An unsupported capability descriptor (`video/x-raw`). -/
def capRaw : String := "video/x-raw,width=640,height=480,framerate=30/1"

/-- The non-JPEG start of camera 0 on the fresh client. -/
def startRaw : StartOutcome × ClientState × List Event :=
  start_stream_with_recording envA initState 0 capRaw "./recordings" 3600 2000000000 "file"

/-- Witness for C2 (amended): concrete non-JPEG start that proceeds. -/
theorem start_nonjpeg_warns_and_proceeds_witness :
    startRaw.2.2.head? = some (.warnNonJpeg capRaw) ∧
    (∃ output_path, startRaw.1 = .started 0 9001 capRaw output_path) ∧
    Event.remoteStartPost 0 9001 capRaw ∈ startRaw.2.2 ∧
    alookup startRaw.2.1.camera_to_port 0 = some 9001 ∧
    alookup startRaw.2.1.active_streams 9001 = some 0 :=
  start_nonjpeg_warns_and_proceeds envA initState 0 9001 capRaw "./recordings"
    3600 2000000000 (by decide) (by decide) rfl (by decide) (by decide)
    (by decide) (by decide)

/-- Counterexample for C2 as stated: with a `video/x-raw` capability the
call is not rejected with a ValidationError; it issues the remote start
call, registers the stream and returns a Session dict. -/
theorem start_nonjpeg_has_side_effects :
    containsSubstr "image/jpeg" capRaw = false ∧
    startRaw.1 = .started 0 9001 capRaw "./recordings/0_Cam_A_20250101_000000-%02d.mkv" ∧
    Event.remoteStartPost 0 9001 capRaw ∈ startRaw.2.2 ∧
    alookup startRaw.2.1.camera_to_port 0 = some 9001 := by
  refine ⟨by decide, by decide, by decide, by decide⟩

/-! ### C4: health-check failure triggers compensating cleanup -/

/-- C4: when the spawned recorder has already exited at the 1-second
probe, `start` runs the compensating `stop_stream`: a best-effort remote
stop is posted (whatever its response `env.stopResponse` — errors from it
are contained, not propagated), the port is released, the camera leaves
every tracking dict, and the caller gets an error dict, not a Session. -/
theorem start_health_check_failure_cleanup (env : Env) (s : ClientState)
    (camera_id port : Nat) (capability output_dir : String)
    (max_size_time max_size_bytes : Nat) (gstreamer_log : String)
    (hgl : gstreamer_log = "none" ∨ gstreamer_log = "file" ∨ gstreamer_log = "console")
    (hfresh : alookup s.camera_to_port camera_id = none)
    (hport : get_available_port s 9001 9099 = .ok port)
    (hlist : env.listResponse = .ok)
    (hstart : env.startResponse camera_id = .ok)
    (hspawn : env.spawnOk camera_id = true)
    (hdead : env.healthAlive camera_id = false) :
    (∃ msg, (start_stream_with_recording env s camera_id capability output_dir
        max_size_time max_size_bytes gstreamer_log).1 = .errorDict msg) ∧
    alookup (start_stream_with_recording env s camera_id capability output_dir
        max_size_time max_size_bytes gstreamer_log).2.1.camera_to_port camera_id = none ∧
    alookup (start_stream_with_recording env s camera_id capability output_dir
        max_size_time max_size_bytes gstreamer_log).2.1.active_streams port = none ∧
    alookup (start_stream_with_recording env s camera_id capability output_dir
        max_size_time max_size_bytes gstreamer_log).2.1.gstreamer_processes camera_id = none ∧
    alookup (start_stream_with_recording env s camera_id capability output_dir
        max_size_time max_size_bytes gstreamer_log).2.1.gstreamer_log_files camera_id = none ∧
    alookup (start_stream_with_recording env s camera_id capability output_dir
        max_size_time max_size_bytes gstreamer_log).2.1.output_paths camera_id = none ∧
    Event.remoteStopPost camera_id ∈ (start_stream_with_recording env s camera_id
        capability output_dir max_size_time max_size_bytes gstreamer_log).2.2 := by
  rcases hgl with hgl | hgl | hgl <;> subst hgl <;>
    cases hstop : env.stopResponse camera_id <;>
    simp only [start_stream_with_recording, start_rest, hfresh, hport, hlist,
      hstart, hspawn, hdead, stop_stream, hstop, alookup_aset_self,
      alookup_aremove_self] <;>
    simp [alookup_aset, alookup_aremove, alookup_aremove_self, alookup_aset_self]

/-- Environment in which the recorder dies before the 1-second probe. -/
def envDead : Env := { envA with healthAlive := fun _ => false }

/-- Witness for C4: concrete start whose recorder fails the health
check. -/
theorem start_health_check_failure_cleanup_witness :
    (∃ msg, (start_stream_with_recording envDead initState 0 capJpeg "./recordings"
        3600 2000000000 "file").1 = .errorDict msg) ∧
    alookup (start_stream_with_recording envDead initState 0 capJpeg "./recordings"
        3600 2000000000 "file").2.1.camera_to_port 0 = none ∧
    alookup (start_stream_with_recording envDead initState 0 capJpeg "./recordings"
        3600 2000000000 "file").2.1.active_streams 9001 = none ∧
    alookup (start_stream_with_recording envDead initState 0 capJpeg "./recordings"
        3600 2000000000 "file").2.1.gstreamer_processes 0 = none ∧
    alookup (start_stream_with_recording envDead initState 0 capJpeg "./recordings"
        3600 2000000000 "file").2.1.gstreamer_log_files 0 = none ∧
    alookup (start_stream_with_recording envDead initState 0 capJpeg "./recordings"
        3600 2000000000 "file").2.1.output_paths 0 = none ∧
    Event.remoteStopPost 0 ∈ (start_stream_with_recording envDead initState 0
        capJpeg "./recordings" 3600 2000000000 "file").2.2 :=
  start_health_check_failure_cleanup envDead initState 0 9001 capJpeg
    "./recordings" 3600 2000000000 "file" (Or.inr (Or.inl rfl)) (by decide)
    rfl rfl rfl (by decide) (by decide)

/-! ### C5: port allocation -/

/-- `List.find?` over `range'` returns the least element satisfying the
predicate. -/
theorem find?_range'_least (p : Nat → Bool) :
    ∀ (n start q : Nat), (List.range' start n).find? p = some q →
      p q = true ∧ start ≤ q ∧ q < start + n ∧
      ∀ r, start ≤ r → r < q → p r = false := by
  intro n
  induction n with
  | zero =>
    intro start q h
    simp at h
  | succ n ih =>
    intro start q h
    rw [List.range'_succ] at h
    by_cases hp : p start
    · rw [List.find?_cons_of_pos _ hp] at h
      obtain rfl : start = q := by simpa using h
      exact ⟨hp, Nat.le_refl _, by omega, fun r h1 h2 => absurd h2 (by omega)⟩
    · rw [List.find?_cons_of_neg _ hp] at h
      obtain ⟨hq, h1, h2, hmin⟩ := ih (start + 1) q h
      refine ⟨hq, by omega, by omega, fun r hr1 hr2 => ?_⟩
      rcases Nat.eq_or_lt_of_le hr1 with rfl | hlt
      · simpa using hp
      · exact hmin r (by omega) hr2

/-- A successful `get_available_port` returns the lowest free port. -/
theorem get_available_port_ok (s : ClientState) (a b port : Nat)
    (h : get_available_port s a b = .ok port) :
    alookup s.active_streams port = none ∧ a ≤ port ∧ port < a + (b + 1 - a) ∧
    ∀ q, a ≤ q → q < port → alookup s.active_streams q ≠ none := by
  unfold get_available_port at h
  cases hf : (List.range' a (b + 1 - a)).find?
      (fun port => (alookup s.active_streams port).isNone) with
  | none => rw [hf] at h; cases h
  | some p =>
    rw [hf] at h
    obtain rfl : p = port := by simpa using h
    obtain ⟨hq, h1, h2, hmin⟩ := find?_range'_least _ (b + 1 - a) a p hf
    refine ⟨Option.isNone_iff_eq_none.mp hq, h1, h2, fun q hq1 hq2 => ?_⟩
    have := hmin q hq1 hq2
    intro hn
    rw [hn] at this
    simp at this

/-- C5 (amended): allocation returns the lowest port of `[9001, 9099]`
not held in `active_streams` and exhaustion raises the RuntimeError —
but the exhausted `start` invocation has already issued one remote call,
`GET /cameras`, before allocation: its trace is exactly the warning
(if any) followed by `remoteListCameras`, with no remote start call. -/
theorem get_available_port_lowest_and_exhaustion (env : Env) (s : ClientState)
    (camera_id port : Nat) (e : PyError) (capability output_dir : String)
    (max_size_time max_size_bytes : Nat) (gstreamer_log : String) :
    (get_available_port s 9001 9099 = .ok port →
      alookup s.active_streams port = none ∧ 9001 ≤ port ∧ port ≤ 9099 ∧
      ∀ q, 9001 ≤ q → q < port → alookup s.active_streams q ≠ none) ∧
    (get_available_port s 9001 9099 = .error e →
      e = .runtimeError "No available ports in range 9001-9099") ∧
    (get_available_port s 9001 9099 = .error e →
      alookup s.camera_to_port camera_id = none →
      env.listResponse = .ok →
      start_stream_with_recording env s camera_id capability output_dir
          max_size_time max_size_bytes gstreamer_log =
        (.raised e, s,
         (if containsSubstr "image/jpeg" capability then []
          else [.warnNonJpeg capability]) ++ [.remoteListCameras])) := by
  refine ⟨?_, ?_, ?_⟩
  · intro h
    have := get_available_port_ok s 9001 9099 port h
    exact ⟨this.1, this.2.1, by omega, this.2.2.2⟩
  · intro h
    unfold get_available_port at h
    cases hf : (List.range' 9001 (9099 + 1 - 9001)).find?
        (fun port => (alookup s.active_streams port).isNone) with
    | some p => rw [hf] at h; cases h
    | none =>
      rw [hf] at h
      obtain rfl : PyError.runtimeError
          ("No available ports in range " ++ toString 9001 ++ "-" ++ toString 9099) = e := by
        simpa using h
      decide
  · intro h hfresh hlist
    by_cases hc : containsSubstr "image/jpeg" capability <;>
      simp [start_stream_with_recording, start_rest, h, hfresh, hlist, hc]

/-- A registry in which cameras `9001..9099` hold every port of the
pool; camera 0 is not registered. -/
def fullState : ClientState :=
  { initState with
    active_streams := (List.range' 9001 99).map (fun p => (p, p))
    camera_to_port := (List.range' 9001 99).map (fun p => (p, p)) }

/-- Witness for C5: the fresh client allocates 9001 (part 1 at
`initState`); the full pool raises the RuntimeError after the camera
list fetch (parts 2 and 3 at `fullState`). -/
theorem get_available_port_lowest_and_exhaustion_witness :
    (alookup initState.active_streams 9001 = none ∧ 9001 ≤ 9001 ∧ 9001 ≤ 9099 ∧
     ∀ q, 9001 ≤ q → q < 9001 → alookup initState.active_streams q ≠ none) ∧
    start_stream_with_recording envA fullState 0 capJpeg "./recordings"
        3600 2000000000 "file" =
      (.raised (.runtimeError
          ("No available ports in range " ++ toString 9001 ++ "-" ++ toString 9099)),
       fullState, [] ++ [.remoteListCameras]) := by
  constructor
  · exact (get_available_port_lowest_and_exhaustion envA initState 0 9001
      (.runtimeError "") capJpeg "./recordings" 3600 2000000000 "file").1 rfl
  · have h := (get_available_port_lowest_and_exhaustion envA fullState 0 9001
      (.runtimeError ("No available ports in range " ++ toString 9001 ++ "-" ++ toString 9099))
      capJpeg "./recordings" 3600 2000000000 "file").2.2 rfl (by decide) rfl
    simpa [capJpeg] using h

/-- Counterexample for C5 as stated: with the pool exhausted, the
invocation's trace already contains a remote call (`GET /cameras`), so
the ResourceExhausted rejection does NOT happen before any remote call. -/
theorem exhaustion_after_remote_list_call :
    (start_stream_with_recording envA fullState 0 capJpeg "./recordings"
        3600 2000000000 "file").2.2 = [Event.remoteListCameras] ∧
    (start_stream_with_recording envA fullState 0 capJpeg "./recordings"
        3600 2000000000 "file").1 =
      .raised (.runtimeError "No available ports in range 9001-9099") ∧
    (start_stream_with_recording envA fullState 0 capJpeg "./recordings"
        3600 2000000000 "file").2.1 = fullState := by
  refine ⟨by decide, by decide, by decide⟩

/-! ### C6: stop after remote-stop failure -/

/-- C6 (amended): for a registered camera, when the server REJECTS the
`/stop` request (HTTP error status caught by
`except requests.exceptions.HTTPError`), `stop_stream` returns the
partial-success dict and every local resource — registry entry, port,
process handle, log handle, output path — has already been released. A
transport-level failure of the same request is NOT downgraded (see the
counterexample), though local resources are released there too. -/
theorem stop_http_error_partial_success (env : Env) (s : ClientState)
    (camera_id port : Nat) (m : String)
    (hreg : alookup s.camera_to_port camera_id = some port)
    (hresp : env.stopResponse camera_id = .httpError m) :
    (stop_stream env s camera_id).1 =
      .stoppedWithServerError camera_id (alookup s.output_paths camera_id) m ∧
    alookup (stop_stream env s camera_id).2.1.camera_to_port camera_id = none ∧
    alookup (stop_stream env s camera_id).2.1.active_streams port = none ∧
    alookup (stop_stream env s camera_id).2.1.gstreamer_processes camera_id = none ∧
    alookup (stop_stream env s camera_id).2.1.gstreamer_log_files camera_id = none ∧
    alookup (stop_stream env s camera_id).2.1.output_paths camera_id = none ∧
    Event.remoteStopPost camera_id ∈ (stop_stream env s camera_id).2.2 := by
  simp [stop_stream, hreg, hresp, alookup_aremove_self, alookup_aremove]

/-- Environment whose `/stop` request is rejected with a 500 status. -/
def envHttp : Env := { envA with stopResponse := fun _ => .httpError "500" }

/-- Witness for C6: concrete stop of camera 0 whose `/stop` gets a 500. -/
theorem stop_http_error_partial_success_witness :
    (stop_stream envHttp stateA 0).1 =
      .stoppedWithServerError 0 (alookup stateA.output_paths 0) "500" ∧
    alookup (stop_stream envHttp stateA 0).2.1.camera_to_port 0 = none ∧
    alookup (stop_stream envHttp stateA 0).2.1.active_streams 9001 = none ∧
    alookup (stop_stream envHttp stateA 0).2.1.gstreamer_processes 0 = none ∧
    alookup (stop_stream envHttp stateA 0).2.1.gstreamer_log_files 0 = none ∧
    alookup (stop_stream envHttp stateA 0).2.1.output_paths 0 = none ∧
    Event.remoteStopPost 0 ∈ (stop_stream envHttp stateA 0).2.2 :=
  stop_http_error_partial_success envHttp stateA 0 9001 "500" (by decide) rfl

/-- Environment whose `/stop` request fails at the transport level. -/
def envConn : Env := { envA with stopResponse := fun _ => .connError }

/-- Counterexample for C6 as stated: a `ConnectionError` from
`requests.post` is not caught by `except HTTPError`, so `stop_stream`
escalates it as a hard error (raised exception), not a partial-success
outcome — even though local resources were already released. -/
theorem stop_conn_error_raises :
    (stop_stream envConn stateA 0).1 = .raised .connError ∧
    alookup (stop_stream envConn stateA 0).2.1.camera_to_port 0 = none ∧
    alookup (stop_stream envConn stateA 0).2.1.active_streams 9001 = none := by
  refine ⟨by decide, by decide, by decide⟩

/-! ### C9: cleanup -/

/-- Removing an absent key is a no-op. -/
theorem aremove_of_not_mem {α : Type} (l : List (Nat × α)) (k : Nat)
    (h : ∀ kv ∈ l, kv.1 ≠ k) : aremove l k = l := by
  unfold aremove
  rw [List.filter_eq_self]
  intro kv hkv
  simpa using h kv hkv

/-- For a tracked camera, `stop_stream` removes exactly its
`camera_to_port` binding and posts `/stop`, whatever the server says. -/
theorem stop_stream_tracked (env : Env) (s : ClientState) (camera_id port : Nat)
    (h : alookup s.camera_to_port camera_id = some port) :
    (stop_stream env s camera_id).2.1.camera_to_port =
      aremove s.camera_to_port camera_id ∧
    Event.remoteStopPost camera_id ∈ (stop_stream env s camera_id).2.2 := by
  cases henv : env.stopResponse camera_id <;> simp [stop_stream, h, henv]

/-- `stop_stream` never touches the `_cleanup_done` flag. -/
theorem stop_stream_cleanup_done (env : Env) (s : ClientState) (camera_id : Nat) :
    (stop_stream env s camera_id).2.1.cleanup_done = s.cleanup_done := by
  simp only [stop_stream]
  split
  · rfl
  · split <;> rfl

/-- Nor does the cleanup loop. -/
theorem stop_all_cleanup_done (env : Env) :
    ∀ (l : List Nat) (s : ClientState),
      (stop_all env s l).1.cleanup_done = s.cleanup_done := by
  intro l
  induction l with
  | nil => intro s; rfl
  | cons c rest ih =>
    intro s
    simp only [stop_all]
    rw [ih, stop_stream_cleanup_done]

/-- The cleanup loop posts `/stop` once for every snapshotted camera id
(keys duplicate-free, as dict keys are). -/
theorem stop_all_posts (env : Env) :
    ∀ (l : List (Nat × Nat)) (s : ClientState), s.camera_to_port = l →
      (l.map Prod.fst).Nodup →
      ∀ c ∈ l.map Prod.fst,
        Event.remoteStopPost c ∈ (stop_all env s (l.map Prod.fst)).2 := by
  intro l
  induction l with
  | nil =>
    intro s _ _ c hc
    simp at hc
  | cons kv rest ih =>
    intro s hs hnd c hc
    obtain ⟨k, v⟩ := kv
    simp only [List.map_cons] at hc hnd ⊢
    have hnotmem : k ∉ rest.map Prod.fst := (List.nodup_cons.mp hnd).1
    have hk : alookup s.camera_to_port k = some v := by
      rw [hs]; simp [alookup]
    have h1 := stop_stream_tracked env s k v hk
    have hrest : (stop_stream env s k).2.1.camera_to_port = rest := by
      rw [h1.1, hs]
      have h2 : aremove ((k, v) :: rest) k = aremove rest k := by
        simp [aremove]
      rw [h2]
      exact aremove_of_not_mem rest k
        (fun kv hkv hkk => hnotmem (hkk ▸ List.mem_map_of_mem Prod.fst hkv))
    rw [stop_all]
    rw [List.mem_cons] at hc
    rcases hc with rfl | hc
    · exact List.mem_append_left _ h1.2
    · exact List.mem_append_right _
        (ih (stop_stream env s k).2.1 hrest (List.nodup_cons.mp hnd).2 c hc)

/-- A client whose `_cleanup_done` flag is set: `cleanup` is a no-op. -/
theorem cleanup_of_done (env : Env) (s : ClientState) (h : s.cleanup_done = true) :
    cleanup env s = (s, []) := by
  simp [cleanup, h]

/-- After any `cleanup`, the guard flag is set. -/
theorem cleanup_done_after (env : Env) (s : ClientState) :
    (cleanup env s).1.cleanup_done = true := by
  by_cases h : s.cleanup_done
  · simp [cleanup, h]
  · simp [cleanup, h, stop_all_cleanup_done]

/-- C9: `cleanup` is guarded — any call after the first is a no-op —
and the first (effective) call stops every snapshotted camera (posting
`/stop` for each, all failures swallowed by construction of the loop)
and leaves every tracking dict empty, hence all ports released,
whatever state the preceding starts and stops produced. -/
theorem cleanup_idempotent_and_clears (env : Env) (s : ClientState) :
    (s.cleanup_done = true → cleanup env s = (s, [])) ∧
    (s.cleanup_done = false →
      (cleanup env s).1.active_streams = [] ∧
      (cleanup env s).1.camera_to_port = [] ∧
      (cleanup env s).1.gstreamer_processes = [] ∧
      (cleanup env s).1.gstreamer_log_files = [] ∧
      (cleanup env s).1.output_paths = [] ∧
      (cleanup env s).1.cleanup_done = true ∧
      ((s.camera_to_port.map Prod.fst).Nodup →
        ∀ camera_id ∈ s.camera_to_port.map Prod.fst,
          Event.remoteStopPost camera_id ∈ (cleanup env s).2)) ∧
    cleanup env (cleanup env s).1 = ((cleanup env s).1, []) := by
  refine ⟨fun h => cleanup_of_done env s h, fun h => ?_, ?_⟩
  · refine ⟨by simp [cleanup, h], by simp [cleanup, h], by simp [cleanup, h],
      by simp [cleanup, h], by simp [cleanup, h], ?_, ?_⟩
    · simp [cleanup, h, stop_all_cleanup_done]
    · intro hnd camera_id hc
      have := stop_all_posts env s.camera_to_port
        { s with cleanup_done := true } rfl hnd camera_id hc
      simpa [cleanup, h] using this
  · exact cleanup_of_done env (cleanup env s).1 (cleanup_done_after env s)

/-- Witness for C9: concrete cleanup of the one-session client. -/
theorem cleanup_idempotent_and_clears_witness :
    (cleanup envA stateA).1.active_streams = [] ∧
    (cleanup envA stateA).1.camera_to_port = [] ∧
    Event.remoteStopPost 0 ∈ (cleanup envA stateA).2 ∧
    cleanup envA (cleanup envA stateA).1 = ((cleanup envA stateA).1, []) := by
  obtain ⟨h1, h2, h3⟩ := cleanup_idempotent_and_clears envA stateA
  have h2' := h2 (by decide)
  exact ⟨h2'.1, h2'.2.1, h2'.2.2.2.2.2.2 (by decide) 0 (by decide), h3⟩

/-! ### C10: the two registries are mutually inverse -/

/-- Fresh client: both maps empty, trivially inverse. -/
theorem registryInv_init : RegistryInv initState := by
  intro c p
  simp [initState, alookup]

/-- States with the same two registries share the invariant. -/
theorem registryInv_of_eq (s t : ClientState) (h : RegistryInv s)
    (h1 : t.camera_to_port = s.camera_to_port)
    (h2 : t.active_streams = s.active_streams) : RegistryInv t := by
  intro c p
  rw [h1, h2]
  exact h c p

/-- Removing a session (camera and its port) keeps the maps inverse. -/
theorem registryInv_remove (s : ClientState) (camera_id port : Nat)
    (h : RegistryInv s) (hreg : alookup s.camera_to_port camera_id = some port) :
    ∀ c p, alookup (aremove s.camera_to_port camera_id) c = some p ↔
           alookup (aremove s.active_streams port) p = some c := by
  intro c p
  rw [alookup_aremove, alookup_aremove]
  by_cases hc : c = camera_id <;> by_cases hp : p = port
  · rw [if_pos hc, if_pos hp]
    simp
  · rw [if_pos hc, if_neg hp]
    constructor
    · intro hfalse; exact Option.noConfusion hfalse
    · intro hr
      have h3 := (h c p).mpr hr
      rw [hc, hreg] at h3
      exact absurd (Option.some.inj h3).symm hp
  · rw [if_neg hc, if_pos hp]
    constructor
    · intro hl
      have h3 := (h c p).mp hl
      rw [hp] at h3
      have h4 := (h camera_id port).mp hreg
      rw [h3] at h4
      exact absurd (Option.some.inj h4) hc
    · intro hfalse; exact Option.noConfusion hfalse
  · rw [if_neg hc, if_neg hp]
    exact h c p

/-- Registering a fresh camera on a free port keeps the maps inverse. -/
theorem registryInv_register (s : ClientState) (camera_id port : Nat)
    (h : RegistryInv s)
    (hfresh : alookup s.camera_to_port camera_id = none)
    (hfree : alookup s.active_streams port = none) :
    ∀ c p, alookup (aset s.camera_to_port camera_id port) c = some p ↔
           alookup (aset s.active_streams port camera_id) p = some c := by
  intro c p
  rw [alookup_aset, alookup_aset]
  by_cases hc : c = camera_id <;> by_cases hp : p = port
  · rw [if_pos hc, if_pos hp]
    simp [hc, hp]
  · rw [if_pos hc, if_neg hp]
    constructor
    · intro hsome; exact absurd (Option.some.inj hsome).symm hp
    · intro hr
      have h3 := (h c p).mpr hr
      rw [hc, hfresh] at h3
      exact Option.noConfusion h3
  · rw [if_neg hc, if_pos hp]
    constructor
    · intro hl
      have h3 := (h c p).mp hl
      rw [hp, hfree] at h3
      exact Option.noConfusion h3
    · intro hsome; exact absurd (Option.some.inj hsome).symm hc
  · rw [if_neg hc, if_neg hp]
    exact h c p

/-- `stop_stream` preserves the invariant. -/
theorem registryInv_stop (env : Env) (s : ClientState) (camera_id : Nat)
    (h : RegistryInv s) : RegistryInv (stop_stream env s camera_id).2.1 := by
  rcases hreg : alookup s.camera_to_port camera_id with _ | port
  · simpa [RegistryInv, stop_stream, hreg] using h
  · cases hresp : env.stopResponse camera_id <;>
      simpa [RegistryInv, stop_stream, hreg, hresp] using
        registryInv_remove s camera_id port h hreg

/-- `stop_stream` preservation, phrased on a destructured result. -/
theorem registryInv_stop_tuple (env : Env) (s : ClientState) (camera_id : Nat)
    (h : RegistryInv s) (o : StopOutcome) (s' : ClientState) (ev : List Event)
    (heq : stop_stream env s camera_id = (o, s', ev)) : RegistryInv s' := by
  have h2 := registryInv_stop env s camera_id h
  rw [heq] at h2
  exact h2

/-- `start_stream_with_recording` preserves the invariant on every
path: duplicate-start, remote failures, port exhaustion, registration,
invalid log option, spawn failure, health-check failure (with its one or
two compensating `stop_stream` calls) and success. -/
theorem registryInv_start (env : Env) (s : ClientState) (camera_id : Nat)
    (capability output_dir : String) (max_size_time max_size_bytes : Nat)
    (gstreamer_log : String) (h : RegistryInv s) :
    RegistryInv (start_stream_with_recording env s camera_id capability
      output_dir max_size_time max_size_bytes gstreamer_log).2.1 := by
  simp only [start_stream_with_recording]
  rcases hreg : alookup s.camera_to_port camera_id with _ | port0 <;>
    try (simp only [start_rest, hreg]; exact h)
  rcases hlist : env.listResponse with _ | m | _ <;>
    try (simp only [start_rest, hreg, hlist]; exact h)
  rcases hport : get_available_port s 9001 9099 with e | port <;>
    try (simp only [start_rest, hreg, hlist, hport]; exact h)
  have hfree := (get_available_port_ok s 9001 9099 port hport).1
  rcases hstart : env.startResponse camera_id with _ | m2 | _ <;>
    try (simp only [start_rest, hreg, hlist, hport, hstart]; exact h)
  simp only [start_rest, hreg, hlist, hport, hstart]
  have hreg2 : RegistryInv { s with
      active_streams := aset s.active_streams port camera_id
      camera_to_port := aset s.camera_to_port camera_id port } :=
    registryInv_register s camera_id port h hreg hfree
  repeat' split
  all_goals first
    | (refine registryInv_of_eq _ _ hreg2 ?_ ?_ <;> (first | rfl | (split <;> rfl)))
    | (refine registryInv_stop_tuple env _ camera_id ?_ _ _ _ (by assumption);
       refine registryInv_of_eq _ _ hreg2 ?_ ?_ <;> (first | rfl | (split <;> rfl)))
    | (show RegistryInv (stop_stream env _ camera_id).2.1;
       refine registryInv_stop env _ camera_id ?_;
       refine registryInv_stop_tuple env _ camera_id ?_ _ _ _ (by assumption);
       refine registryInv_of_eq _ _ hreg2 ?_ ?_ <;> (first | rfl | (split <;> rfl)))

/-- `cleanup` preserves the invariant (a cleared registry is trivially
inverse; a guarded no-op keeps the incoming invariant). -/
theorem registryInv_cleanup (env : Env) (s : ClientState) (h : RegistryInv s) :
    RegistryInv (cleanup env s).1 := by
  by_cases hdone : s.cleanup_done
  · rw [cleanup_of_done env s hdone]
    exact h
  · intro c p
    have h1 : (cleanup env s).1.camera_to_port = [] := by
      simp [cleanup, hdone]
    have h2 : (cleanup env s).1.active_streams = [] := by
      simp [cleanup, hdone]
    rw [h1, h2]
    simp [alookup]

/-- C10: after any sequence of public operations from a fresh client,
`camera_to_port` and `active_streams` are mutually inverse partial
bijections; in particular no two cameras hold one port and no port is
bound to two cameras. -/
theorem registry_maps_mutually_inverse (env : Env) (ops : List Op) :
    RegistryInv (exec env initState ops) ∧
    (∀ c c' p, alookup (exec env initState ops).camera_to_port c = some p →
      alookup (exec env initState ops).camera_to_port c' = some p → c = c') ∧
    (∀ c p p', alookup (exec env initState ops).active_streams p = some c →
      alookup (exec env initState ops).active_streams p' = some c → p = p') := by
  have main : ∀ (l : List Op) (s : ClientState), RegistryInv s →
      RegistryInv (exec env s l) := by
    intro l
    induction l with
    | nil => intro s h; exact h
    | cons op rest ih =>
      intro s h
      cases op with
      | opStart cid cap od mst msb gl =>
        exact ih _ (registryInv_start env s cid cap od mst msb gl h)
      | opStop cid => exact ih _ (registryInv_stop env s cid h)
      | opCleanup => exact ih _ (registryInv_cleanup env s h)
  have hInv := main ops initState registryInv_init
  refine ⟨hInv, ?_, ?_⟩
  · intro c c' p h1 h2
    have e1 := (hInv c p).mp h1
    have e2 := (hInv c' p).mp h2
    rw [e1] at e2
    exact Option.some.inj e2
  · intro c p p' h1 h2
    have e1 := (hInv c p).mpr h1
    have e2 := (hInv c p').mpr h2
    rw [e1] at e2
    exact Option.some.inj e2

/-- Witness for C10: concrete one-start run; camera 0 holds 9001 and the
injectivity conclusion is discharged at concrete lookups. -/
theorem registry_maps_mutually_inverse_witness :
    alookup (exec envA initState
      [Op.opStart 0 capJpeg "./recordings" 3600 2000000000 "file"]).camera_to_port
      0 = some 9001 ∧
    (0 : Nat) = 0 :=
  ⟨by decide,
   (registry_maps_mutually_inverse envA
      [Op.opStart 0 capJpeg "./recordings" 3600 2000000000 "file"]).2.1 0 0 9001
      (by decide) (by decide)⟩
